import Mathlib

/-!
Shallow embedding of the WNY Black Car booking site core logic:
the fare model, the multi-step booking form state machine, the
booking/persistence operations, the admin PIN gate, the content
save/restore versioning, and the chat fallback — translated from
the TypeScript sources (`src/app/page.tsx` booking page segment,
`src/app/admin/page.tsx`, `src/app/api/stripe/checkout/route.ts`,
the concierge chat route, and `src/components/virtual-concierge.tsx`),
with correctness theorems for the specification claims.
-/

namespace WnyBlackCar

/-- Drop leading whitespace characters from a character list. -/
def dropLeadingWs : List Char → List Char
  | [] => []
  | c :: cs => if c.isWhitespace then dropLeadingWs cs else c :: cs

/-- Model of JavaScript `String.prototype.trim()`: remove whitespace from
both ends of the string. -/
def jsTrim (s : String) : String :=
  ⟨((dropLeadingWs s.data).reverse |> dropLeadingWs).reverse⟩

/-- Model of JavaScript `String.prototype.toLowerCase()` (ASCII case fold,
which covers every keyword the code matches on). -/
def jsToLower (s : String) : String :=
  ⟨s.data.map Char.toLower⟩

/-- Model of JavaScript `Array.prototype.join(sep)`. -/
def joinWith (sep : String) : List String → String
  | [] => ""
  | [x] => x
  | x :: y :: xs => x ++ sep ++ joinWith sep (y :: xs)

/-- Service type union `"one-way" | "round-trip" | "hourly"` from
`src/app/api/stripe/checkout/route.ts` and the booking page. -/
inductive ServiceType where
  | oneWay
  | roundTrip
  | hourly
deriving DecidableEq, Repr

/-- The `serviceMultiplier` table from `src/app/api/stripe/checkout/route.ts`
(lines 21-25); the booking page's `serviceMultiplier` memo (round-trip → 2,
hourly → 3, otherwise 1) computes the same table. -/
def serviceMultiplier : ServiceType → Nat
  | .oneWay => 1
  | .roundTrip => 2
  | .hourly => 3

/-- `VehicleOption` from the booking page segment of `src/app/page.tsx`. -/
structure VehicleOption where
  id : String
  name : String
  vtype : String
  seats : String
  luggage : String
  image : String
  baseFare : Nat
  description : String
deriving DecidableEq, Repr

/-- Static `vehicles` catalog from the booking page segment of `src/app/page.tsx`. -/
def vehicles : List VehicleOption :=
  [ { id := "sedan"
    , name := "Luxury Sedan"
    , vtype := "Executive Class"
    , seats := "Up to 3 passengers"
    , luggage := "2 suitcases"
    , image := "https://images.unsplash.com/photo-1552519507-da3b142c6e3d?auto=format&fit=crop&q=80&w=1200"
    , baseFare := 120
    , description := "Perfect for executive transfers and individual business travel with total comfort and privacy." }
  , { id := "suv"
    , name := "Premium SUV"
    , vtype := "First Class"
    , seats := "Up to 6 passengers"
    , luggage := "5 suitcases"
    , image := "https://images.unsplash.com/photo-1533473359331-0135ef1b58bf?auto=format&fit=crop&q=80&w=1200"
    , baseFare := 145
    , description := "Ample space for families and small groups with premium comfort and elegant arrival presence." }
  , { id := "sprinter"
    , name := "Executive Van"
    , vtype := "Group Class"
    , seats := "Up to 14 passengers"
    , luggage := "10 suitcases"
    , image := "https://images.unsplash.com/photo-1541899481282-d53bffe3c35d?auto=format&fit=crop&q=80&w=1200"
    , baseFare := 220
    , description := "The ideal option for event logistics, executive teams, and large group transportation." }
  ]

/-- The booking page's own `serviceMultiplier` memo (`src/app/page.tsx`,
booking segment lines 624-628): round-trip → 2, hourly → 3, otherwise 1. -/
def bookingServiceMultiplier (s : ServiceType) : Nat :=
  if s = .roundTrip then 2
  else if s = .hourly then 3
  else 1

/-- The booking page's `estimatedFare` memo: `selected ? selected.baseFare *
serviceMultiplier : 0` (`src/app/page.tsx`, booking segment lines 630-633). -/
def estimatedFare (selected : Option VehicleOption) (s : ServiceType) : Nat :=
  match selected with
  | some v => v.baseFare * bookingServiceMultiplier s
  | none => 0

/-- Model of JavaScript `Number.prototype.toFixed(2)` restricted to the
integer dollar amounts this embedding works with. -/
def toFixed2 (n : Nat) : String :=
  toString n ++ ".00"

/-- `BookingFormState` from the booking page segment of `src/app/page.tsx`. -/
structure BookingFormState where
  serviceType : ServiceType
  serviceDate : String
  pickupAddress : String
  dropoffAddress : String
  pickupTime : String
  passengers : Nat
  fullName : String
  email : String
  phone : String
  specialInstructions : String
deriving Repr

/-- The three booking steps (`useState<1 | 2 | 3>`). -/
inductive BookingStep where
  | step1
  | step2
  | step3
deriving DecidableEq, Repr

/-- Guard `canProceedStep1` from `src/app/page.tsx` (booking segment lines
749-753): pickup/dropoff addresses non-empty after trimming, service date
and pickup time non-empty. -/
def canProceedStep1 (f : BookingFormState) : Bool :=
  !(jsTrim f.pickupAddress == "") && !(jsTrim f.dropoffAddress == "")
    && !(f.serviceDate == "") && !(f.pickupTime == "")

/-- Guard `canProceedStep2 = Boolean(selected)`: a vehicle is selected. -/
def canProceedStep2 (selected : Option VehicleOption) : Bool :=
  selected.isSome

/-- The step-1 "Continue to Vehicle Selection" button: it calls `goToStep(2)`
and is rendered with `disabled={!canProceedStep1}`, so the attempted 1→2
transition goes through exactly when the guard holds. -/
def tryContinueStep1 (f : BookingFormState) (step : BookingStep) : BookingStep :=
  if canProceedStep1 f then .step2 else step

/-- `goToStepFromConcierge` from `src/app/page.tsx` (booking segment lines
762-782): the handler the chat surface's `onGoToStep` is wired to. It
returns the new booking step together with the `submitError` message it
sets (the empty string when it clears the error and navigates). -/
def goToStepFromConcierge (f : BookingFormState) (selected : Option VehicleOption)
    (current : BookingStep) (nextStep : BookingStep) : BookingStep × String :=
  match nextStep with
  | .step2 =>
      if !canProceedStep1 f then
        (current, "Complete trip details first so I can open vehicle selection.")
      else (.step2, "")
  | .step3 =>
      if !canProceedStep1 f then
        (current, "Complete trip details first before proceeding to confirmation.")
      else if !canProceedStep2 selected then
        (current, "Select a vehicle first before proceeding to confirmation.")
      else (.step3, "")
  | .step1 => (.step1, "")

/-- Booking status union from `src/app/admin/page.tsx`. -/
inductive BookingStatus where
  | pending
  | confirmed
  | completed
  | cancelled
deriving DecidableEq, Repr

/-- Payment status union from `src/app/admin/page.tsx`. -/
inductive PaymentStatus where
  | unpaid
  | paid
  | refunded
deriving DecidableEq, Repr

/-- A document of the `bookings` collection: the generated document id plus
the field payload written by the booking page's `addDoc` call (`createdAt`
is a server timestamp and is left out of the shallow embedding). -/
structure StoredBooking where
  id : String
  tripType : ServiceType
  serviceDate : String
  pickupTime : String
  pickupAddress : String
  dropoffAddress : String
  passengers : Nat
  vehicleId : String
  vehicleName : String
  estimatedFare : Nat
  customerName : String
  customerEmail : String
  customerPhone : String
  specialInstructions : String
  status : BookingStatus
  paymentStatus : PaymentStatus
deriving DecidableEq, Repr

/-- The document payload the booking page's `handleSubmit` passes to
`addDoc(collection(firestoreDb, "bookings"), ...)`, with the generated id. -/
def mkBookingDoc (f : BookingFormState) (v : VehicleOption) (newId : String) : StoredBooking :=
  { id := newId
  , tripType := f.serviceType
  , serviceDate := f.serviceDate
  , pickupTime := f.pickupTime
  , pickupAddress := f.pickupAddress
  , dropoffAddress := f.dropoffAddress
  , passengers := f.passengers
  , vehicleId := v.id
  , vehicleName := v.name
  , estimatedFare := estimatedFare (some v) f.serviceType
  , customerName := f.fullName
  , customerEmail := f.email
  , customerPhone := f.phone
  , specialInstructions := f.specialInstructions
  , status := .pending
  , paymentStatus := .unpaid }

/-- Outcome of a submit attempt as surfaced to the user. -/
inductive SubmitOutcome where
  | configError (msg : String)
  | validationError (msg : String)
  | saveFailed (msg : String)
  | saved (bookingId : String)
deriving DecidableEq, Repr

/-- The validation-and-persistence phase of `handleSubmit` from the booking
page segment of `src/app/page.tsx` (lines 644-695): the Firebase
configuration check, the three field-validation guards, the vehicle guard,
and the `addDoc` write. `db` is the `bookings` collection contents (`none`
when `firestoreDb` is unconfigured), `addOk` says whether the `addDoc`
network call succeeds, and `newId` is the id Firestore generates. The
Stripe checkout call that follows a successful write does not touch the
`bookings` collection and is outside this function. -/
def handleSubmit (f : BookingFormState) (selected : Option VehicleOption)
    (db : Option (List StoredBooking)) (addOk : Bool) (newId : String) :
    Option (List StoredBooking) × SubmitOutcome :=
  match db with
  | none => (none, .configError "Firebase is not configured.")
  | some l =>
      if f.serviceDate = "" ∨ f.pickupTime = "" then
        (some l, .validationError "Please select service date and pickup time.")
      else if f.pickupAddress = "" ∨ f.dropoffAddress = "" then
        (some l, .validationError "Please enter pickup and drop-off addresses.")
      else if f.fullName = "" ∨ f.email = "" ∨ f.phone = "" then
        (some l, .validationError "Please complete your contact information.")
      else
        match selected with
        | none => (some l, .validationError "Please select a vehicle.")
        | some v =>
            if !addOk then (some l, .saveFailed "Unable to save booking right now.")
            else (some (l ++ [mkBookingDoc f v newId]), .saved newId)

/-- Outcome of an admin booking-mutation operation. -/
inductive AdminOutcome where
  | ok
  | error (msg : String)
deriving DecidableEq, Repr

/-- `updateBookingStatus` from `src/app/admin/page.tsx` (lines 314-334):
PIN guard, Firebase-configuration guard, then
`updateDoc(doc(firestoreDb, "bookings", bookingId), { status })`, which
rewrites only the `status` field of the identified document. `reachable`
says whether the `updateDoc` call succeeds; on failure the caught error
message is surfaced and the store is untouched. -/
def updateBookingStatus (unlocked : Bool) (db : Option (List StoredBooking))
    (reachable : Bool) (bookingId : String) (status : BookingStatus) :
    Option (List StoredBooking) × AdminOutcome :=
  if !unlocked then (db, .error "Admin PIN is required.")
  else
    match db with
    | none => (none, .error "Firebase is not configured.")
    | some l =>
        if !reachable then (some l, .error "Unable to update booking status.")
        else
          (some (l.map fun r => if r.id = bookingId then { r with status := status } else r),
            .ok)

/-- `updatePaymentStatus` from `src/app/admin/page.tsx` (lines 336-356):
same shape as `updateBookingStatus` but rewriting only `paymentStatus`. -/
def updatePaymentStatus (unlocked : Bool) (db : Option (List StoredBooking))
    (reachable : Bool) (bookingId : String) (paymentStatus : PaymentStatus) :
    Option (List StoredBooking) × AdminOutcome :=
  if !unlocked then (db, .error "Admin PIN is required.")
  else
    match db with
    | none => (none, .error "Firebase is not configured.")
    | some l =>
        if !reachable then (some l, .error "Unable to update payment status.")
        else
          (some (l.map fun r =>
              if r.id = bookingId then { r with paymentStatus := paymentStatus } else r),
            .ok)

/-- The admin PIN constant `ADMIN_PIN` from `src/app/admin/page.tsx` line 55. -/
def ADMIN_PIN : String := "1844"

/-- The PIN-gate slice of the admin page's component state. `sessionFlag`
models the `sessionStorage` entry under `PIN_SESSION_KEY`. -/
structure PinState where
  pinInput : String
  pinError : String
  isPinUnlocked : Bool
  sessionFlag : Bool
deriving DecidableEq, Repr

/-- `unlockWithPin` from `src/app/admin/page.tsx` (lines 293-305): clear the
error, compare the trimmed input against `ADMIN_PIN`; on mismatch set the
error message, otherwise set the unlocked flag and the session flag and
clear the input. -/
def unlockWithPin (s : PinState) : PinState :=
  if jsTrim s.pinInput ≠ ADMIN_PIN then
    { s with pinError := "Incorrect PIN." }
  else
    { s with isPinUnlocked := true, sessionFlag := true, pinInput := "", pinError := "" }

/-- `SiteFleetItem` from `src/lib/site-content.ts`. `baseFare` is modelled
as an integer number of dollars (the admin form feeds it through `Number`
and the validation only compares it with 0). `vtype` embeds the source
field `type`. -/
structure SiteFleetItem where
  id : String
  name : String
  vtype : String
  seats : String
  luggage : String
  image : String
  description : String
  baseFare : Int
deriving DecidableEq, Repr

/-- The `home` section of `SiteContent` from `src/lib/site-content.ts`. -/
structure HomeContent where
  heroBadge : String
  heroTitleLine1 : String
  heroTitleLine2 : String
  heroDescription : String
  primaryCta : String
  secondaryCta : String
deriving DecidableEq, Repr

/-- The `booking` section of `SiteContent` from `src/lib/site-content.ts`. -/
structure BookingContent where
  formTitle : String
  formSubtitle : String
deriving DecidableEq, Repr

/-- `SiteContent` from `src/lib/site-content.ts`. -/
structure SiteContent where
  home : HomeContent
  booking : BookingContent
  fleet : List SiteFleetItem
deriving DecidableEq, Repr

/-- Version action union `"save" | "restore"` from `src/app/admin/page.tsx`. -/
inductive ContentVersionAction where
  | save
  | restore
deriving DecidableEq, Repr

/-- A document of the `siteContentVersions` collection (`createdAt` and the
constant `createdByUid`/`createdByEmail` placeholder labels are left out of
the shallow embedding). -/
structure ContentVersion where
  id : String
  snapshot : SiteContent
  action : ContentVersionAction
  sourceVersionId : Option String
deriving DecidableEq, Repr

/-- The persisted content side of the store: the singleton
`siteContent/main` document plus the `siteContentVersions` collection,
newest version first (the order the version feed delivers). -/
structure ContentState where
  content : SiteContent
  versions : List ContentVersion
deriving DecidableEq, Repr

/-- `invalidPriceItems` from `src/app/admin/page.tsx` (lines 123-126): the
fleet entries whose `baseFare` is `<= 0`. -/
def invalidPriceItems (draft : SiteContent) : List SiteFleetItem :=
  draft.fleet.filter fun item => decide (item.baseFare ≤ 0)

/-- The per-item predicate inside `invalidPhotoItems`
(`src/app/admin/page.tsx` lines 128-145): a trimmed-empty image reference,
an image reference the code's URL check rejects, or a recorded image load
error for the item. `urlOk` is the verdict of the code's `isValidHttpUrl`
helper (lines 284-291) on the trimmed value — `new URL(value)` succeeding
with protocol `http:` or `https:`. WHATWG URL parsing is a browser API
external to this code, so its per-string verdict is supplied as an oracle
rather than reimplemented. -/
def photoInvalid (urlOk : String → Bool) (imageLoadErrors : String → Bool)
    (item : SiteFleetItem) : Bool :=
  let value := jsTrim item.image
  if value = "" then true
  else !urlOk value || imageLoadErrors item.id

/-- `invalidPhotoItems` from `src/app/admin/page.tsx` (lines 128-145). -/
def invalidPhotoItems (draft : SiteContent) (urlOk : String → Bool)
    (imageLoadErrors : String → Bool) : List SiteFleetItem :=
  draft.fleet.filter (photoInvalid urlOk imageLoadErrors)

/-- The validation error message built by `saveContentDraft`
(`src/app/admin/page.tsx` lines 420-432), fed with the ids of the
offending entries. -/
def validationMessage (priceIds photoIds : List String) : String :=
  let issues :=
    (if priceIds ≠ [] then
      ["Prices must be greater than $0 for: " ++ joinWith ", " priceIds]
     else []) ++
    (if photoIds ≠ [] then
      ["Valid Photo URL is required for: " ++ joinWith ", " photoIds]
     else [])
  "Cannot save yet. " ++ joinWith ". " issues ++ "."

/-- Outcome of the admin bulk save-content action. `validationBlocked`
carries the id lists of the offending entries together with the exact
`contentError` message built from them. -/
inductive SaveOutcome where
  | pinRequired
  | validationBlocked (priceIds photoIds : List String) (msg : String)
  | notConfigured
  | saveFailed
  | saved
deriving DecidableEq, Repr

/-- `saveContentDraft` from `src/app/admin/page.tsx` (lines 414-478): PIN
guard, fleet validation guard (blocking with the offending ids named in
the error), Firebase-configuration guard, then a single `writeBatch`
commit that overwrites the `siteContent/main` document with the draft and
appends one `siteContentVersions` document with `action: "save"`. The
batch commit is all-or-nothing: `commitOk` says whether it succeeds, and a
failed commit changes nothing. `urlOk` is the browser URL-check oracle
described at `photoInvalid`. -/
def saveContentDraft (unlocked : Bool) (draft : SiteContent)
    (urlOk : String → Bool) (imageLoadErrors : String → Bool)
    (db : Option ContentState) (commitOk : Bool) (newVersionId : String) :
    Option ContentState × SaveOutcome :=
  if !unlocked then (db, .pinRequired)
  else if 0 < (invalidPriceItems draft).length ∨
      0 < (invalidPhotoItems draft urlOk imageLoadErrors).length then
    (db, .validationBlocked
      ((invalidPriceItems draft).map (fun item => item.id))
      ((invalidPhotoItems draft urlOk imageLoadErrors).map (fun item => item.id))
      (validationMessage
        ((invalidPriceItems draft).map (fun item => item.id))
        ((invalidPhotoItems draft urlOk imageLoadErrors).map (fun item => item.id))))
  else
    match db with
    | none => (none, .notConfigured)
    | some st =>
        if !commitOk then (some st, .saveFailed)
        else
          (some { content := draft,
                  versions := ⟨newVersionId, draft, .save, none⟩ :: st.versions },
            .saved)

/-- Outcome of the admin restore-version action. -/
inductive RestoreOutcome where
  | pinRequired
  | notConfigured
  | cancelled
  | restoreFailed
  | restored
deriving DecidableEq, Repr

/-- `restoreContentVersion` from `src/app/admin/page.tsx` (lines 480-535):
PIN guard, Firebase-configuration guard, the `window.confirm` prompt
(`confirmed`), then a single `writeBatch` commit that overwrites
`siteContent/main` with the chosen snapshot and appends one new
`siteContentVersions` document with `action: "restore"` and
`sourceVersionId` pointing at the restored-from version. -/
def restoreContentVersion (unlocked : Bool) (db : Option ContentState)
    (confirmed : Bool) (commitOk : Bool) (versionId : String)
    (snapshot : SiteContent) (newVersionId : String) :
    Option ContentState × RestoreOutcome :=
  if !unlocked then (db, .pinRequired)
  else
    match db with
    | none => (none, .notConfigured)
    | some st =>
        if !confirmed then (some st, .cancelled)
        else if !commitOk then (some st, .restoreFailed)
        else
          (some { content := snapshot,
                  versions := ⟨newVersionId, snapshot, .restore, some versionId⟩ :: st.versions },
            .restored)

/-- Check whether `needle` occurs as a contiguous run in `haystack`, the
model of JavaScript `String.prototype.includes` below. -/
def listIncludes : List Char → List Char → Bool
  | [], needle => needle.isEmpty
  | h :: t, needle => needle.isPrefixOf (h :: t) || listIncludes t needle

/-- Model of JavaScript `String.prototype.includes(pattern)`. -/
def strIncludes (s pattern : String) : Bool :=
  listIncludes s.data pattern.data

/-- `ConciergeContext` from the chat route (`src/unnamed/part_004`): every
field is optional in the request body. `estimatedFare` is modelled as an
integer number of dollars. -/
structure ConciergeContext where
  bookingStep : Option Nat
  serviceTypeLabel : Option String
  passengers : Option Nat
  selectedVehicleName : Option String
  estimatedFare : Option Int
deriving DecidableEq, Repr

/-- `fallbackReply` from the chat route (`src/unnamed/part_004` lines
44-67): the fixed deterministic rule-based reply, keyed on lowercase
keyword matching over the message with the booking context. -/
def fallbackReply (message : String) (context : Option ConciergeContext) : String :=
  let normalized := jsToLower message
  if strIncludes normalized "vehicle" || strIncludes normalized "car" then
    let passengers := (context.bind (fun c => c.passengers)).getD 0
    if passengers ≤ 3 then "For a small party, an executive sedan is usually the best fit."
    else if passengers ≤ 6 then "For your group size, a premium SUV is often the most balanced option."
    else "For larger groups, an executive van is typically the most comfortable choice."
  else if strIncludes normalized "price" || strIncludes normalized "fare" || strIncludes normalized "cost" then
    match context.bind (fun c => c.estimatedFare) with
    | some fare =>
        if 0 < fare then "Your current estimated total is $" ++ toFixed2 fare.toNat ++ "."
        else "Final pricing is confirmed during checkout and reviewed by dispatch after submission."
    | none => "Final pricing is confirmed during checkout and reviewed by dispatch after submission."
  else if strIncludes normalized "step" || strIncludes normalized "next" then
    "I can guide you step-by-step: trip details, vehicle selection, then confirmation and payment."
  else
    "I can help you choose the right vehicle, complete each booking step, and finish checkout smoothly."

/-- Response of the chat route: a 400 error payload or a reply payload. -/
inductive ChatResponse where
  | badRequest (error : String)
  | reply (text : String)
deriving DecidableEq, Repr

/-- The `POST` handler of the chat route (`src/unnamed/part_004` lines
69-109): trim the message and reject a missing/trimmed-empty one with a
400 error; with no `OPENAI_API_KEY` return the deterministic fallback
reply; with a key, return the external completion's trimmed text
(`llmReply`, the external collaborator's answer) or fall back when it is
absent. -/
def chatPOST (apiKey : Option String) (message : Option String)
    (context : Option ConciergeContext) (llmReply : Option String) : ChatResponse :=
  match message with
  | none => .badRequest "Missing message."
  | some m =>
      let userMessage := jsTrim m
      if userMessage = "" then .badRequest "Missing message."
      else
        match apiKey with
        | none => .reply (fallbackReply userMessage context)
        | some _ =>
            match llmReply with
            | some t => .reply t
            | none => .reply (fallbackReply userMessage context)

/-- A minimal fleet entry that passes the admin validation under a URL
oracle accepting its image, used to exercise the content operations on
concrete input. -/
def sampleFleetItem : SiteFleetItem :=
  ⟨"sedan", "Luxury Sedan", "Executive Class", "Up to 3 passengers",
    "2 suitcases", "https://img.example", "Executive rides.", 120⟩

/-- A minimal site content value that passes the admin validation. -/
def sampleContent : SiteContent :=
  ⟨⟨"badge", "line1", "line2", "desc", "cta1", "cta2"⟩, ⟨"title", "subtitle"⟩,
    [sampleFleetItem]⟩

/-- A content store holding `sampleContent` and no versions yet. -/
def sampleContentState : ContentState :=
  ⟨sampleContent, []⟩

/-- A concrete booking form with empty trip details and contacts. -/
def emptyForm : BookingFormState :=
  ⟨.oneWay, "", "", "", "", 2, "", "", "", ""⟩

/-- A concrete completely filled booking form. -/
def filledForm : BookingFormState :=
  ⟨.roundTrip, "2026-10-12", "Airport", "Downtown", "10:00", 2,
    "John Carter", "john@email.com", "(716) 000-0000", ""⟩

theorem jsTrim_empty : jsTrim "" = "" := by decide

/-- An empty trip-detail field falsifies the `canProceedStep1` guard. -/
theorem canProceedStep1_eq_false_of_empty (f : BookingFormState)
    (h : f.pickupAddress = "" ∨ f.dropoffAddress = "" ∨ f.serviceDate = "" ∨ f.pickupTime = "") :
    canProceedStep1 f = false := by
  rcases h with h | h | h | h <;> simp [canProceedStep1, h, jsTrim_empty]

/-- A passing `canProceedStep1` guard implies all four trip-detail fields
are non-empty. -/
theorem nonempty_of_canProceedStep1 (f : BookingFormState)
    (h : canProceedStep1 f = true) :
    f.pickupAddress ≠ "" ∧ f.dropoffAddress ≠ "" ∧ f.serviceDate ≠ "" ∧ f.pickupTime ≠ "" := by
  refine ⟨?_, ?_, ?_, ?_⟩ <;> intro he <;>
    rw [canProceedStep1_eq_false_of_empty f (by simp [he])] at h <;> exact Bool.false_ne_true h

/-- C1: for every vehicle in the catalog and every service type, the
booking page's estimated fare equals the vehicle base fare times the
checkout route's service multiplier, with multiplier 1 for one-way, 2 for
round-trip and 3 for hourly; in particular a $120 base fare with
round-trip displays as $240.00. -/
theorem fare_estimate_uses_service_multiplier
    (v : VehicleOption) (_hv : v ∈ vehicles) (s : ServiceType) :
    estimatedFare (some v) s = v.baseFare * serviceMultiplier s ∧
    serviceMultiplier .oneWay = 1 ∧
    serviceMultiplier .roundTrip = 2 ∧
    serviceMultiplier .hourly = 3 ∧
    (v.baseFare = 120 → toFixed2 (estimatedFare (some v) .roundTrip) = "240.00") := by
  refine ⟨?_, rfl, rfl, rfl, fun h => ?_⟩
  · cases s <;> rfl
  · simp only [estimatedFare, h]
    decide

theorem fare_estimate_uses_service_multiplier_witness :
    estimatedFare (some (vehicles.get ⟨0, by decide⟩)) .roundTrip =
      (vehicles.get ⟨0, by decide⟩).baseFare * serviceMultiplier .roundTrip :=
  (fare_estimate_uses_service_multiplier (vehicles.get ⟨0, by decide⟩)
    (List.get_mem vehicles 0 (by decide)) .roundTrip).1

/-- C4: the attempted step 1 → step 2 transition keeps the form on step 1
whenever any of the four trip-detail fields is the empty string, and it
reaches step 2 only when all four are non-empty. -/
theorem step1_to_step2_guard (f : BookingFormState) :
    ((f.pickupAddress = "" ∨ f.dropoffAddress = "" ∨ f.serviceDate = "" ∨ f.pickupTime = "") →
      tryContinueStep1 f .step1 = .step1) ∧
    (tryContinueStep1 f .step1 = .step2 →
      f.pickupAddress ≠ "" ∧ f.dropoffAddress ≠ "" ∧ f.serviceDate ≠ "" ∧ f.pickupTime ≠ "") := by
  constructor
  · intro h
    simp [tryContinueStep1, canProceedStep1_eq_false_of_empty f h]
  · intro h2
    cases hg : canProceedStep1 f with
    | false => rw [tryContinueStep1, hg] at h2; cases h2
    | true => exact nonempty_of_canProceedStep1 f hg

theorem step1_to_step2_guard_witness :
    tryContinueStep1 emptyForm .step1 = .step1 :=
  (step1_to_step2_guard emptyForm).1 (Or.inl rfl)

/-- C3: a submit attempt in which any contact field (name, email, phone) is
the empty string never writes a booking record — the collection is left
unchanged and the outcome is never `saved` — and, whenever the store is
configured, the surfaced outcome is a field-specific validation error. -/
theorem submit_blocked_on_empty_contact
    (f : BookingFormState) (selected : Option VehicleOption)
    (db : Option (List StoredBooking)) (addOk : Bool) (newId : String)
    (h : f.fullName = "" ∨ f.email = "" ∨ f.phone = "") :
    (handleSubmit f selected db addOk newId).1 = db ∧
    (∀ bid, (handleSubmit f selected db addOk newId).2 ≠ .saved bid) ∧
    (∀ l, db = some l →
      ∃ msg, (handleSubmit f selected db addOk newId).2 = .validationError msg) := by
  cases db with
  | none => exact ⟨rfl, fun bid => by simp [handleSubmit], fun l hl => by cases hl⟩
  | some l =>
      simp only [handleSubmit]
      by_cases h1 : f.serviceDate = "" ∨ f.pickupTime = ""
      · rw [if_pos h1]
        exact ⟨rfl, fun bid => by simp, fun l' hl => ⟨_, rfl⟩⟩
      · rw [if_neg h1]
        by_cases h2 : f.pickupAddress = "" ∨ f.dropoffAddress = ""
        · rw [if_pos h2]
          exact ⟨rfl, fun bid => by simp, fun l' hl => ⟨_, rfl⟩⟩
        · rw [if_neg h2, if_pos h]
          exact ⟨rfl, fun bid => by simp, fun l' hl => ⟨_, rfl⟩⟩

theorem submit_blocked_on_empty_contact_witness :
    (handleSubmit emptyForm none (some []) true "b1").1 = some [] :=
  (submit_blocked_on_empty_contact emptyForm none (some []) true "b1" (Or.inl rfl)).1

/-- C5: a content draft containing a fleet entry with price at most 0 or an
image reference the code's URL/load check flags — for any verdict the
browser URL constructor returns — makes the save operation leave the
persisted store unchanged and report a validation error carrying the
offending id lists and the message built from them, with the offending
entry's id among them. -/
theorem invalid_fleet_blocks_content_save
    (draft : SiteContent) (urlOk ile : String → Bool) (db : Option ContentState)
    (ok : Bool) (nid : String) (item : SiteFleetItem)
    (hmem : item ∈ draft.fleet)
    (hbad : item.baseFare ≤ 0 ∨ photoInvalid urlOk ile item = true) :
    (saveContentDraft true draft urlOk ile db ok nid).1 = db ∧
    (saveContentDraft true draft urlOk ile db ok nid).2 =
      .validationBlocked ((invalidPriceItems draft).map fun i => i.id)
        ((invalidPhotoItems draft urlOk ile).map fun i => i.id)
        (validationMessage ((invalidPriceItems draft).map fun i => i.id)
          ((invalidPhotoItems draft urlOk ile).map fun i => i.id)) ∧
    (item.id ∈ (invalidPriceItems draft).map (fun i => i.id) ∨
      item.id ∈ (invalidPhotoItems draft urlOk ile).map (fun i => i.id)) := by
  have hguard : 0 < (invalidPriceItems draft).length ∨
      0 < (invalidPhotoItems draft urlOk ile).length := by
    rcases hbad with hb | hb
    · exact Or.inl (List.length_pos.2 (List.ne_nil_of_mem
        (List.mem_filter.2 ⟨hmem, by simpa using hb⟩)))
    · exact Or.inr (List.length_pos.2 (List.ne_nil_of_mem
        (List.mem_filter.2 ⟨hmem, hb⟩)))
  have hids : item.id ∈ (invalidPriceItems draft).map (fun i => i.id) ∨
      item.id ∈ (invalidPhotoItems draft urlOk ile).map (fun i => i.id) := by
    rcases hbad with hb | hb
    · exact Or.inl (List.mem_map_of_mem _ (List.mem_filter.2 ⟨hmem, by simpa using hb⟩))
    · exact Or.inr (List.mem_map_of_mem _ (List.mem_filter.2 ⟨hmem, hb⟩))
  simp only [saveContentDraft, Bool.not_true]
  rw [if_neg (by simp), if_pos hguard]
  exact ⟨rfl, rfl, hids⟩

theorem invalid_fleet_blocks_content_save_witness :
    (saveContentDraft true
      ⟨sampleContent.home, sampleContent.booking, [{ sampleFleetItem with baseFare := 0 }]⟩
      (fun _ => true) (fun _ => false) (some sampleContentState) true "v1").1 =
      some sampleContentState :=
  (invalid_fleet_blocks_content_save
    ⟨sampleContent.home, sampleContent.booking, [{ sampleFleetItem with baseFare := 0 }]⟩
    (fun _ => true) (fun _ => false) (some sampleContentState) true "v1"
    { sampleFleetItem with baseFare := 0 }
    (by simp) (Or.inl (by decide))).1

/-- C2: saving a content draft and then restoring the version that save
created yields persisted content equal to the draft and appends exactly
one new version entry with action `restore` referencing the saved
version's id; moreover each of the two operations is all-or-nothing — its
only effects are either no change at all or the paired
content-overwrite-plus-version-append. -/
theorem content_save_restore_round_trip
    (st0 : ContentState) (contentA : SiteContent) (urlOk ile : String → Bool)
    (vid1 vid2 : String)
    (hprice : invalidPriceItems contentA = [])
    (hphoto : invalidPhotoItems contentA urlOk ile = []) :
    saveContentDraft true contentA urlOk ile (some st0) true vid1 =
      (some ⟨contentA, ⟨vid1, contentA, .save, none⟩ :: st0.versions⟩, .saved) ∧
    restoreContentVersion true
        (some ⟨contentA, ⟨vid1, contentA, .save, none⟩ :: st0.versions⟩)
        true true vid1 contentA vid2 =
      (some ⟨contentA,
          ⟨vid2, contentA, .restore, some vid1⟩ :: ⟨vid1, contentA, .save, none⟩ :: st0.versions⟩,
        .restored) ∧
    (∀ (unlocked : Bool) (draft : SiteContent) (u i : String → Bool)
        (dbx : Option ContentState) (ok : Bool) (nid : String),
      (saveContentDraft unlocked draft u i dbx ok nid).1 = dbx ∨
      ∃ stx, dbx = some stx ∧
        (saveContentDraft unlocked draft u i dbx ok nid).1 =
          some ⟨draft, ⟨nid, draft, .save, none⟩ :: stx.versions⟩) ∧
    (∀ (unlocked : Bool) (dbx : Option ContentState) (conf ok : Bool)
        (vid : String) (snap : SiteContent) (nid : String),
      (restoreContentVersion unlocked dbx conf ok vid snap nid).1 = dbx ∨
      ∃ stx, dbx = some stx ∧
        (restoreContentVersion unlocked dbx conf ok vid snap nid).1 =
          some ⟨snap, ⟨nid, snap, .restore, some vid⟩ :: stx.versions⟩) := by
  refine ⟨?_, ?_, ?_, ?_⟩
  · simp [saveContentDraft, hprice, hphoto]
  · simp [restoreContentVersion]
  · intro unlocked draft u i dbx ok nid
    cases unlocked with
    | false => exact Or.inl rfl
    | true =>
        simp only [saveContentDraft, Bool.not_true]
        rw [if_neg (by simp)]
        by_cases hg : 0 < (invalidPriceItems draft).length ∨
          0 < (invalidPhotoItems draft u i).length
        · rw [if_pos hg]; exact Or.inl rfl
        · rw [if_neg hg]
          cases dbx with
          | none => exact Or.inl rfl
          | some stx =>
              cases ok with
              | false => exact Or.inl rfl
              | true => exact Or.inr ⟨stx, rfl, rfl⟩
  · intro unlocked dbx conf ok vid snap nid
    cases unlocked with
    | false => exact Or.inl rfl
    | true =>
        cases dbx with
        | none => exact Or.inl rfl
        | some stx =>
            cases conf with
            | false => exact Or.inl rfl
            | true =>
                cases ok with
                | false => exact Or.inl rfl
                | true => exact Or.inr ⟨stx, rfl, by simp [restoreContentVersion]⟩

theorem content_save_restore_round_trip_witness :
    saveContentDraft true sampleContent (fun _ => true) (fun _ => false)
        (some sampleContentState) true "v1" =
      (some ⟨sampleContent, ⟨"v1", sampleContent, .save, none⟩ :: sampleContentState.versions⟩,
        .saved) :=
  (content_save_restore_round_trip sampleContentState sampleContent (fun _ => true)
    (fun _ => false) "v1" "v2" (by decide) (by decide)).1

/-- C6: with the PIN entered and the store reachable, `updateBookingStatus`
rewrites exactly the `status` field of the identified record and
`updatePaymentStatus` exactly the `paymentStatus` field, leaving every
other field of every record unchanged; with the store unreachable or
unconfigured each operation reports an error and leaves the prior state
unchanged. -/
theorem booking_updates_write_single_field :
    (∀ (l : List StoredBooking) (bid : String) (st : BookingStatus),
      updateBookingStatus true (some l) true bid st =
        (some (l.map fun r => if r.id = bid then { r with status := st } else r), .ok)) ∧
    (∀ (r : StoredBooking) (bid : String) (st : BookingStatus),
      (if r.id = bid then { r with status := st } else r).status
          = (if r.id = bid then st else r.status) ∧
      (if r.id = bid then { r with status := st } else r).paymentStatus = r.paymentStatus ∧
      (if r.id = bid then { r with status := st } else r).id = r.id ∧
      (if r.id = bid then { r with status := st } else r).tripType = r.tripType ∧
      (if r.id = bid then { r with status := st } else r).serviceDate = r.serviceDate ∧
      (if r.id = bid then { r with status := st } else r).pickupTime = r.pickupTime ∧
      (if r.id = bid then { r with status := st } else r).pickupAddress = r.pickupAddress ∧
      (if r.id = bid then { r with status := st } else r).dropoffAddress = r.dropoffAddress ∧
      (if r.id = bid then { r with status := st } else r).passengers = r.passengers ∧
      (if r.id = bid then { r with status := st } else r).vehicleId = r.vehicleId ∧
      (if r.id = bid then { r with status := st } else r).vehicleName = r.vehicleName ∧
      (if r.id = bid then { r with status := st } else r).estimatedFare = r.estimatedFare ∧
      (if r.id = bid then { r with status := st } else r).customerName = r.customerName ∧
      (if r.id = bid then { r with status := st } else r).customerEmail = r.customerEmail ∧
      (if r.id = bid then { r with status := st } else r).customerPhone = r.customerPhone ∧
      (if r.id = bid then { r with status := st } else r).specialInstructions
          = r.specialInstructions) ∧
    (∀ (l : List StoredBooking) (bid : String) (ps : PaymentStatus),
      updatePaymentStatus true (some l) true bid ps =
        (some (l.map fun r => if r.id = bid then { r with paymentStatus := ps } else r), .ok)) ∧
    (∀ (r : StoredBooking) (bid : String) (ps : PaymentStatus),
      (if r.id = bid then { r with paymentStatus := ps } else r).paymentStatus
          = (if r.id = bid then ps else r.paymentStatus) ∧
      (if r.id = bid then { r with paymentStatus := ps } else r).status = r.status ∧
      (if r.id = bid then { r with paymentStatus := ps } else r).id = r.id ∧
      (if r.id = bid then { r with paymentStatus := ps } else r).tripType = r.tripType ∧
      (if r.id = bid then { r with paymentStatus := ps } else r).serviceDate = r.serviceDate ∧
      (if r.id = bid then { r with paymentStatus := ps } else r).pickupTime = r.pickupTime ∧
      (if r.id = bid then { r with paymentStatus := ps } else r).pickupAddress = r.pickupAddress ∧
      (if r.id = bid then { r with paymentStatus := ps } else r).dropoffAddress
          = r.dropoffAddress ∧
      (if r.id = bid then { r with paymentStatus := ps } else r).passengers = r.passengers ∧
      (if r.id = bid then { r with paymentStatus := ps } else r).vehicleId = r.vehicleId ∧
      (if r.id = bid then { r with paymentStatus := ps } else r).vehicleName = r.vehicleName ∧
      (if r.id = bid then { r with paymentStatus := ps } else r).estimatedFare
          = r.estimatedFare ∧
      (if r.id = bid then { r with paymentStatus := ps } else r).customerName
          = r.customerName ∧
      (if r.id = bid then { r with paymentStatus := ps } else r).customerEmail
          = r.customerEmail ∧
      (if r.id = bid then { r with paymentStatus := ps } else r).customerPhone
          = r.customerPhone ∧
      (if r.id = bid then { r with paymentStatus := ps } else r).specialInstructions
          = r.specialInstructions) ∧
    (∀ (unlocked : Bool) (db : Option (List StoredBooking)) (bid : String) (st : BookingStatus),
      (updateBookingStatus unlocked db false bid st).1 = db ∧
      ∃ m, (updateBookingStatus unlocked db false bid st).2 = .error m) ∧
    (∀ (unlocked reachable : Bool) (bid : String) (st : BookingStatus),
      (updateBookingStatus unlocked none reachable bid st).1 = none ∧
      ∃ m, (updateBookingStatus unlocked none reachable bid st).2 = .error m) ∧
    (∀ (unlocked : Bool) (db : Option (List StoredBooking)) (bid : String) (ps : PaymentStatus),
      (updatePaymentStatus unlocked db false bid ps).1 = db ∧
      ∃ m, (updatePaymentStatus unlocked db false bid ps).2 = .error m) ∧
    (∀ (unlocked reachable : Bool) (bid : String) (ps : PaymentStatus),
      (updatePaymentStatus unlocked none reachable bid ps).1 = none ∧
      ∃ m, (updatePaymentStatus unlocked none reachable bid ps).2 = .error m) := by
  refine ⟨fun l bid st => rfl, ?_, fun l bid ps => rfl, ?_, ?_, ?_, ?_, ?_⟩
  · intro r bid st
    split <;> simp
  · intro r bid ps
    split <;> simp
  · intro unlocked db bid st
    cases unlocked <;> cases db <;> exact ⟨rfl, _, rfl⟩
  · intro unlocked reachable bid st
    cases unlocked <;> cases reachable <;> exact ⟨rfl, _, rfl⟩
  · intro unlocked db bid ps
    cases unlocked <;> cases db <;> exact ⟨rfl, _, rfl⟩
  · intro unlocked reachable bid ps
    cases unlocked <;> cases reachable <;> exact ⟨rfl, _, rfl⟩

/-- C10: while the PIN gate is locked, every admin mutation operation
returns with the backing store untouched and only an error outcome — no
booking record, content document or version entry can be mutated without
the PIN having been entered. -/
theorem locked_admin_mutations_write_nothing :
    (∀ (db : Option (List StoredBooking)) (reachable : Bool) (bid : String) (st : BookingStatus),
      updateBookingStatus false db reachable bid st = (db, .error "Admin PIN is required.")) ∧
    (∀ (db : Option (List StoredBooking)) (reachable : Bool) (bid : String) (ps : PaymentStatus),
      updatePaymentStatus false db reachable bid ps = (db, .error "Admin PIN is required.")) ∧
    (∀ (draft : SiteContent) (urlOk ile : String → Bool) (db : Option ContentState)
        (ok : Bool) (nid : String),
      saveContentDraft false draft urlOk ile db ok nid = (db, .pinRequired)) ∧
    (∀ (db : Option ContentState) (conf ok : Bool) (vid : String)
        (snap : SiteContent) (nid : String),
      restoreContentVersion false db conf ok vid snap nid = (db, .pinRequired)) :=
  ⟨fun _ _ _ _ => rfl, fun _ _ _ _ => rfl, fun _ _ _ _ _ _ => rfl, fun _ _ _ _ _ _ => rfl⟩

/-- C7 counterexample: the entered value " 1844" differs from the PIN
"1844", yet it unlocks the dashboard with no error shown, because
`unlockWithPin` compares the trimmed input against `ADMIN_PIN`. -/
theorem pin_untrimmed_value_also_unlocks :
    (" 1844" : String) ≠ ADMIN_PIN ∧
    (unlockWithPin ⟨" 1844", "", false, false⟩).isPinUnlocked = true ∧
    (unlockWithPin ⟨" 1844", "", false, false⟩).pinError = "" := by
  decide

/-- C7 (amended): an entered value whose trimmed form equals "1844" unlocks
the admin dashboard and sets the session flag; an entered value whose
trimmed form differs leaves the dashboard locked, the session flag unset
and shows the "Incorrect PIN." error. -/
theorem pin_gate_on_trimmed_input (s : PinState)
    (hlocked : s.isPinUnlocked = false) (hsession : s.sessionFlag = false) :
    (jsTrim s.pinInput = ADMIN_PIN →
      (unlockWithPin s).isPinUnlocked = true ∧ (unlockWithPin s).sessionFlag = true) ∧
    (jsTrim s.pinInput ≠ ADMIN_PIN →
      (unlockWithPin s).isPinUnlocked = false ∧
      (unlockWithPin s).sessionFlag = false ∧
      (unlockWithPin s).pinError = "Incorrect PIN.") := by
  constructor
  · intro h
    rw [unlockWithPin, if_neg (by simp [h])]
    exact ⟨rfl, rfl⟩
  · intro h
    rw [unlockWithPin, if_pos h]
    exact ⟨hlocked, hsession, rfl⟩

theorem pin_gate_on_trimmed_input_witness :
    (unlockWithPin ⟨"1844", "", false, false⟩).isPinUnlocked = true :=
  ((pin_gate_on_trimmed_input ⟨"1844", "", false, false⟩ rfl rfl).1 (by decide)).1

/-- C8 counterexample: the request message " " is a non-empty string, yet
the chat route without an API key answers it with the 400 "Missing
message." error payload instead of a fallback reply, because the handler
tests the trimmed message. -/
theorem chat_whitespace_message_rejected :
    (" " : String) ≠ "" ∧
    chatPOST none (some " ") none none = .badRequest "Missing message." := by
  decide

/-- C8 (amended): whenever the text-generation service is unconfigured (no
API key), every chat request whose message is non-empty after trimming is
answered with the deterministic rule-based fallback applied to the trimmed
message and the supplied context; in particular a message containing
"vehicle" with context passengers equal to 8 yields the recommendation
for the largest-capacity class (the executive van). -/
theorem chat_fallback_when_unconfigured (message : String)
    (context : Option ConciergeContext) (llmReply : Option String)
    (hm : jsTrim message ≠ "") :
    chatPOST none (some message) context llmReply =
      .reply (fallbackReply (jsTrim message) context) ∧
    (∀ ctx : ConciergeContext,
      strIncludes (jsToLower (jsTrim message)) "vehicle" = true →
      ctx.passengers = some 8 →
      fallbackReply (jsTrim message) (some ctx) =
        "For larger groups, an executive van is typically the most comfortable choice.") := by
  constructor
  · simp [chatPOST, hm]
  · intro ctx hveh hp
    rw [fallbackReply]
    simp only [hveh, Bool.true_or, if_pos]
    simp [hp]

theorem chat_fallback_when_unconfigured_witness :
    chatPOST none (some "Which vehicle fits my trip?")
        (some ⟨some 2, some "One Way", some 8, none, some 240⟩) none =
      .reply (fallbackReply (jsTrim "Which vehicle fits my trip?")
        (some ⟨some 2, some "One Way", some 8, none, some 240⟩)) :=
  (chat_fallback_when_unconfigured "Which vehicle fits my trip?"
    (some ⟨some 2, some "One Way", some 8, none, some 240⟩) none (by decide)).1

/-- C9: a concierge-requested jump to step 2 or step 3 is honored (error
message cleared, step set to the target) only when the corresponding guard
holds, and whenever the guard is unmet — an empty trip-detail field for
step 2, additionally a missing vehicle selection for step 3 — the jump is
rejected with a non-empty explanatory message and the current step is kept
unchanged, never silently forced. -/
theorem concierge_jump_respects_guards (f : BookingFormState)
    (selected : Option VehicleOption) (current : BookingStep) :
    ((goToStepFromConcierge f selected current .step2).2 = "" →
      (goToStepFromConcierge f selected current .step2).1 = .step2 ∧
      canProceedStep1 f = true ∧
      f.pickupAddress ≠ "" ∧ f.dropoffAddress ≠ "" ∧ f.serviceDate ≠ "" ∧ f.pickupTime ≠ "") ∧
    ((goToStepFromConcierge f selected current .step3).2 = "" →
      (goToStepFromConcierge f selected current .step3).1 = .step3 ∧
      canProceedStep1 f = true ∧ canProceedStep2 selected = true) ∧
    ((f.pickupAddress = "" ∨ f.dropoffAddress = "" ∨ f.serviceDate = "" ∨ f.pickupTime = "") →
      goToStepFromConcierge f selected current .step2 =
        (current, "Complete trip details first so I can open vehicle selection.") ∧
      goToStepFromConcierge f selected current .step3 =
        (current, "Complete trip details first before proceeding to confirmation.")) ∧
    (selected = none →
      (goToStepFromConcierge f selected current .step3).1 = current ∧
      (goToStepFromConcierge f selected current .step3).2 ≠ "") := by
  refine ⟨?_, ?_, ?_, ?_⟩
  · intro h2
    cases hg : canProceedStep1 f with
    | false => rw [goToStepFromConcierge] at h2; simp [hg] at h2
    | true =>
        refine ⟨?_, rfl, nonempty_of_canProceedStep1 f hg⟩
        rw [goToStepFromConcierge]
        simp [hg]
  · intro h3
    cases hg : canProceedStep1 f with
    | false => rw [goToStepFromConcierge] at h3; simp [hg] at h3
    | true =>
        cases hs : canProceedStep2 selected with
        | false => rw [goToStepFromConcierge] at h3; simp [hg, hs] at h3
        | true =>
            refine ⟨?_, rfl, rfl⟩
            rw [goToStepFromConcierge]
            simp [hg, hs]
  · intro h
    have hg := canProceedStep1_eq_false_of_empty f h
    constructor <;> (rw [goToStepFromConcierge]; simp [hg])
  · intro hnone
    rw [goToStepFromConcierge]
    cases hg : canProceedStep1 f with
    | false => simp [hg]
    | true => simp [hg, canProceedStep2, hnone]

theorem concierge_jump_respects_guards_witness :
    goToStepFromConcierge emptyForm none .step1 .step2 =
      (.step1, "Complete trip details first so I can open vehicle selection.") :=
  ((concierge_jump_respects_guards emptyForm none .step1).2.2.1 (Or.inl rfl)).1

end WnyBlackCar
